import Mathlib

/-!
Verification of the `claude-tools` CLI (TypeScript) against its design
specification.  The development shallowly embeds the program's data model
and operations: the Zod configuration schema (`src/types`), the
environment-driven `loadConfig` (`src/lib/config.ts`), the `ClaudeAPI`
client (`src/lib/api.ts`: `ask`, `listModels`, `handleError`), and the
CLI command actions of `src/index.ts`, in particular the interactive
chat loop's input dispatch.  The remote Anthropic service is modelled as
an oracle parameter (a function from the request to a success or error
outcome), so every definition is executable and every remote behaviour
can be simulated.  JavaScript truthiness, `parseInt`, and the
`split(/\s+/)` tokenizer are embedded explicitly where the code relies
on them.
-/

namespace ClaudeTools

/-! ## JavaScript-level helpers -/

/-- A JavaScript `number` restricted to the values the program produces
with `parseInt`: an integer, or NaN (modelled as `none`). -/
abbrev JsNumber := Option Int

/-- JS truthiness of a `number | undefined` value (`undefined`, `0` and
`NaN` are falsy), as used by `if (options.tokens)` and
`if (options?.limit)`. -/
def jsNumTruthy : Option JsNumber → Bool
  | some (some t) => t != 0
  | _ => false

/-- JS truthiness of a `string | undefined` value (`undefined` and the
empty string are falsy). -/
def jsStrTruthy : Option String → Bool
  | some s => s != ""
  | none => false

/-- Value of a non-empty list of decimal digits. -/
def digitsToNat (ds : List Char) : Nat :=
  ds.foldl (fun acc c => acc * 10 + (c.toNat - 48)) 0

/-- Leading decimal digits of a character list, as a number; `none` when
there is no leading digit. -/
def parseDigits (cs : List Char) : Option Nat :=
  let ds := cs.takeWhile Char.isDigit
  if ds = [] then none else some (digitsToNat ds)

/-- JavaScript `parseInt` with radix auto-detection restricted to base 10
(the hexadecimal `0x` auto-detection is not modelled; no input of this
program uses it): skip leading whitespace, read an optional sign and the
longest run of leading digits, and return NaN (`none`) when no digit is
found. -/
def parseIntJS (s : String) : Option Int :=
  let cs := s.data.dropWhile Char.isWhitespace
  match cs with
  | '-' :: rest => (parseDigits rest).map (fun n => -(n : Int))
  | '+' :: rest => (parseDigits rest).map (fun n => (n : Int))
  | _ => (parseDigits cs).map (fun n => (n : Int))

/-! ## Data model (`src/types`) -/

/-- The fixed allowed-model set `ALLOWED_MODELS` of `src/types/index.ts`. -/
def ALLOWED_MODELS : List String :=
  ["claude-opus-4-1-20250805", "claude-opus-4-20250514", "claude-3-7-sonnet-latest"]

/-- The `z.enum(ALLOWED_MODELS).default(...)` default model id. -/
def defaultModel : String := "claude-opus-4-20250514"

/-- The validated configuration record produced by `ConfigSchema`. -/
structure Config where
  apiKey : String
  model : String
  maxTokens : Int
  deriving Repr, DecidableEq

/-- One role-tagged message of a conversation. -/
inductive Role
  | user
  | assistant
  deriving Repr, DecidableEq

/-- A turn of `MessageCreateParams['messages']`. -/
structure Turn where
  role : Role
  content : String
  deriving Repr, DecidableEq

/-- Token counts attached to a response (`inputTokens`/`outputTokens`). -/
structure Usage where
  inputTokens : Int
  outputTokens : Int
  deriving Repr, DecidableEq

/-! ## Zod schema validation (`ConfigSchema` of `src/types/index.ts`)

`ConfigSchema.parse` either yields a `Config` or throws; the throw is
modelled as `Except.error` carrying the issue message. -/

/-- Field `apiKey: z.string().min(1, "API key is required")`: a missing field is
rejected as required, a present string must be non-empty. -/
def zodApiKey : Option String → Except String String
  | none => Except.error "Required"
  | some s => if 1 ≤ s.length then Except.ok s else Except.error "API key is required"

/-- Field `model: z.enum(ALLOWED_MODELS).default(defaultModel)`: a missing field
takes the default, a present string must be one of the enum values. -/
def zodModel : Option String → Except String String
  | none => Except.ok defaultModel
  | some m => if m ∈ ALLOWED_MODELS then Except.ok m else Except.error "Invalid enum value"

/-- Field `maxTokens: z.number().positive().default(1000)`: a missing field takes
the default 1000, NaN is not a valid number, and the value must be
strictly positive. -/
def zodMaxTokens : Option JsNumber → Except String Int
  | none => Except.ok 1000
  | some none => Except.error "Expected number, received nan"
  | some (some t) => if 0 < t then Except.ok t else Except.error "Number must be greater than 0"

/-- The whole `ConfigSchema.parse` on the record `loadConfig` builds. -/
def ConfigSchema.parse (apiKey model : Option String) (maxTokens : Option JsNumber) :
    Except String Config :=
  match zodApiKey apiKey with
  | Except.error e => Except.error e
  | Except.ok k =>
    match zodModel model with
    | Except.error e => Except.error e
    | Except.ok m =>
      match zodMaxTokens maxTokens with
      | Except.error e => Except.error e
      | Except.ok t => Except.ok { apiKey := k, model := m, maxTokens := t }

/-! ## Config loader (`src/lib/config.ts`) -/

/-- The environment variables `loadConfig` reads. -/
structure Env where
  anthropicApiKey : Option String := none
  claudeModel : Option String := none
  maxTokensVar : Option String := none
  deriving Repr, DecidableEq

/-- The `process.env.MAX_TOKENS ? parseInt(process.env.MAX_TOKENS) :
undefined` ternary: a falsy (unset or empty) variable yields `undefined`,
otherwise the variable is parsed with `parseInt`. -/
def maxTokensInput (v : Option String) : Option JsNumber :=
  match v with
  | some s => if s ≠ "" then some (parseIntJS s) else none
  | none => none

/-- Outcome of `loadConfig`: a configuration, or `process.exit(1)` after
printing the configuration-error lines. -/
inductive LoadResult
  | ok (c : Config)
  | exit1 (lines : List String)
  deriving Repr, DecidableEq

/-- Function `loadConfig` of `src/lib/config.ts`: parse the three environment
values through `ConfigSchema`; on a validation error print a visible
configuration-error message and terminate the process with status 1. -/
def loadConfig (env : Env) : LoadResult :=
  match ConfigSchema.parse env.anthropicApiKey env.claudeModel (maxTokensInput env.maxTokensVar) with
  | Except.ok c => LoadResult.ok c
  | Except.error msg =>
      LoadResult.exit1
        ["Configuration error: " ++ msg,
         "Make sure you have set ANTHROPIC_API_KEY in your .env file"]

/-! ## Model Client (`src/lib/api.ts`, class `ClaudeAPI`)

The remote transport is an oracle parameter: a function from the request
the client builds to either a success value or a thrown JavaScript
error.  A thrown error is funnelled through `handleError`, which in the
source prints a classified message and calls `process.exit(1)`. -/

/-- A content block of a remote reply message: a text segment or a
non-text segment. -/
inductive ContentBlock
  | text (s : String)
  | other (tag : String)
  deriving Repr, DecidableEq

/-- The remote `Message`: content blocks plus reported token usage. -/
structure RemoteMessage where
  content : List ContentBlock
  input_tokens : Int
  output_tokens : Int
  deriving Repr, DecidableEq

/-- An error thrown by the transport: an `Anthropic.APIError` with an
HTTP-like status, or any other thrown value. -/
inductive JsError
  | apiError (status : Option Int) (message : String)
  | unknown (message : String)
  deriving Repr, DecidableEq

/-- A request to `client.messages.create`. -/
structure Request where
  model : String
  maxTokens : Int
  messages : List Turn
  deriving Repr, DecidableEq

/-- What `handleError` does: the lines it prints and the exit status it
terminates the process with. -/
structure ErrorReport where
  lines : List String
  exitCode : Nat
  deriving Repr, DecidableEq

/-- Method `ClaudeAPI.handleError`: classify an `APIError` by status (401, 429,
400 each add a hint line) and terminate with `process.exit(1)`; any other
error is printed as unexpected and also terminates with status 1.  The
function's TypeScript return type is `never`: it never returns a value
to its caller. -/
def ClaudeAPI.handleError (e : JsError) : ErrorReport :=
  match e with
  | JsError.apiError status message =>
      { lines :=
          ["API Error: " ++ message] ++
          (if status = some 401 then ["Check your API key in the .env file"]
           else if status = some 429 then ["Rate limit exceeded. Please wait a moment."]
           else if status = some 400 then ["Invalid request. Check your prompt or parameters."]
           else []),
        exitCode := 1 }
  | JsError.unknown message =>
      { lines := ["Unexpected error: " ++ message], exitCode := 1 }

/-- JavaScript `Array.prototype.join('\n')`. -/
def joinNewline : List String → String
  | [] => ""
  | [s] => s
  | s :: rest => s ++ "\n" ++ joinNewline rest

/-- The text-extraction step of `ClaudeAPI.ask`:
`message.content.filter(b => b.type === 'text').map(b => b.text).join('\n')`. -/
def extractText (blocks : List ContentBlock) : String :=
  joinNewline (blocks.filterMap fun b =>
    match b with
    | ContentBlock.text s => some s
    | ContentBlock.other _ => none)

/-- The value `ClaudeAPI.ask` resolves with on success. -/
structure ClaudeResponse where
  content : String
  usage : Usage
  deriving Repr, DecidableEq

/-- Outcome of a `ClaudeAPI` operation: a returned value, or process
termination performed by `handleError`. -/
inductive ApiOutcome (α : Type)
  | ok (r : α)
  | exited (report : ErrorReport)
  deriving Repr, DecidableEq

/-- The request `ClaudeAPI.ask` issues: the configured model and token
limit with the single user turn carrying the prompt. -/
def ClaudeAPI.askRequest (cfg : Config) (prompt : String) : Request :=
  { model := cfg.model, maxTokens := cfg.maxTokens,
    messages := [{ role := Role.user, content := prompt }] }

/-- Method `ClaudeAPI.ask`: issue the single-turn request; on success return the
newline-joined text segments and the reported token counts; on a thrown
error fall into `handleError` (which exits the process). -/
def ClaudeAPI.ask (cfg : Config) (prompt : String)
    (remote : Request → Except JsError RemoteMessage) : ApiOutcome ClaudeResponse :=
  match remote (ClaudeAPI.askRequest cfg prompt) with
  | Except.ok msg =>
      ApiOutcome.ok
        { content := extractText msg.content,
          usage := { inputTokens := msg.input_tokens, outputTokens := msg.output_tokens } }
  | Except.error e => ApiOutcome.exited (ClaudeAPI.handleError e)

/-- A model descriptor of the list-models response. -/
structure ModelDescriptor where
  id : String
  display_name : String
  created_at : String
  deriving Repr, DecidableEq

/-- The `/v1/models` response page. -/
structure ModelsListResponse where
  data : List ModelDescriptor
  first_id : Option String
  has_more : Bool
  last_id : Option String
  deriving Repr, DecidableEq

/-- Options of `ClaudeAPI.listModels`. -/
structure ListOptions where
  afterId : Option String := none
  beforeId : Option String := none
  limit : Option Int := none
  deriving Repr, DecidableEq

/-- The query parameters `listModels` appends to the `/v1/models` URL:
each option is appended only when truthy (`if (options?.afterId)` …), so
an empty-string cursor or a zero limit is dropped. -/
def listModelsQuery (o : ListOptions) : List (String × String) :=
  (match o.afterId with
   | some a => if a ≠ "" then [("after_id", a)] else []
   | none => []) ++
  (match o.beforeId with
   | some b => if b ≠ "" then [("before_id", b)] else []
   | none => []) ++
  (match o.limit with
   | some n => if n ≠ 0 then [("limit", toString n)] else []
   | none => [])

/-- Method `ClaudeAPI.listModels`: issue one GET with the built query and return
the decoded page unchanged; a thrown error falls into `handleError`. -/
def ClaudeAPI.listModels (o : ListOptions)
    (remote : List (String × String) → Except JsError ModelsListResponse) :
    ApiOutcome ModelsListResponse :=
  match remote (listModelsQuery o) with
  | Except.ok page => ApiOutcome.ok page
  | Except.error e => ApiOutcome.exited (ClaudeAPI.handleError e)

/-! ## The ask command action (`src/index.ts`) -/

/-- The parsed command-line options of `ask`: `--model` is the raw string
when given; `--tokens` is `parseInt` of the raw string when given (so it
may be NaN). -/
structure AskOptions where
  model : Option String := none
  tokens : Option JsNumber := none
  deriving Repr, DecidableEq

/-- The two truthiness-guarded overrides of the `ask` action:
`if (options.model) config.model = options.model;` and
`if (options.tokens) config.maxTokens = options.tokens;`.  Note that the
model override is applied without any membership check against
`ALLOWED_MODELS`. -/
def applyAskOverrides (cfg : Config) (opts : AskOptions) : Config :=
  let c1 :=
    if jsStrTruthy opts.model then { cfg with model := opts.model.getD cfg.model } else cfg
  if jsNumTruthy opts.tokens then
    { c1 with maxTokens := (opts.tokens.getD none).getD c1.maxTokens }
  else c1

/-- What the `ask` command action does up to its one remote call: exit
during `loadConfig` (before any network request), or issue exactly the
request built from the overridden configuration. -/
inductive AskCmdOutcome
  | configExit (lines : List String)
  | request (r : Request)
  deriving Repr, DecidableEq

/-- The `ask` command action of `src/index.ts`: load the configuration
(terminating on a configuration error before the client is even
constructed), apply the `--model`/`--tokens` overrides, and issue the
single-turn request through `ClaudeAPI.ask`. -/
def askCommand (env : Env) (opts : AskOptions) (prompt : String) : AskCmdOutcome :=
  match loadConfig env with
  | LoadResult.exit1 lines => AskCmdOutcome.configExit lines
  | LoadResult.ok cfg =>
      AskCmdOutcome.request (ClaudeAPI.askRequest (applyAskOverrides cfg opts) prompt)

/-! ## Chat session (`src/index.ts`, `chat` command action)

The loop keeps a mutable `config` (whose `model` the `/model` command
reassigns) and a `history`.  One iteration reads a line, trims it, and
dispatches on its shape.  The input is tokenized with
`trimmed.split(/\s+/)` in the `/model` branch. -/

/-- Accumulator pass of the `split(/\s+/)` tokenizer: `acc` holds the
characters of the word being read, in reverse. -/
def tokenizeWsAux : List Char → List Char → List (List Char)
  | [], acc => if acc = [] then [] else [acc.reverse]
  | c :: rest, acc =>
    if c.isWhitespace then
      if acc = [] then tokenizeWsAux rest []
      else acc.reverse :: tokenizeWsAux rest []
    else tokenizeWsAux rest (c :: acc)

/-- Behaviour of `split(/\s+/)` on a string without leading whitespace: the maximal
runs of non-whitespace characters, with runs of whitespace as
separators. -/
def tokenizeWs (cs : List Char) : List (List Char) :=
  tokenizeWsAux cs []

/-- The classification one trimmed input line receives in the chat loop,
following the source's test order. -/
inductive ChatAction
  | exitLoop
  | clearHistory
  | help
  | listModelsReq
  | modelSwitch (id : String)
  | emptyNoop
  | promptTurn (text : String)
  deriving Repr, DecidableEq

/-- The chat loop's dispatch on the character list of the trimmed input:
`/exit`, `/clear`, `/help`, then any input starting with `/model`
(split into parts: one part lists models, otherwise `parts[1]` is the
requested id), then the empty-line no-op, and every remaining input is a
prompt. -/
def dispatchChars (cs : List Char) : ChatAction :=
  if cs = "/exit".data then ChatAction.exitLoop
  else if cs = "/clear".data then ChatAction.clearHistory
  else if cs = "/help".data then ChatAction.help
  else if "/model".data.isPrefixOf cs then
    let parts := tokenizeWs cs
    if parts.length = 1 then ChatAction.listModelsReq
    else ChatAction.modelSwitch (String.mk (parts.getD 1 []))
  else if cs = [] then ChatAction.emptyNoop
  else ChatAction.promptTurn (String.mk cs)

/-- Dispatch of a trimmed input line. -/
def dispatch (input : String) : ChatAction :=
  dispatchChars input.data

/-- The value `ClaudeAPI.chat` resolves with on success. -/
structure ChatCallValue where
  response : String
  usage : Usage
  updatedHistory : List Turn
  deriving Repr, DecidableEq

/-- Modelled from the spec: the method `ClaudeAPI.chat` is not among the
sources (only its call site in `src/index.ts` and its signature in the
project notes are); per the spec it "appends a user turn to a copy of
`history`, issues the request with the full turn sequence, appends the
assistant's reply as a new turn, and returns the extended history",
without mutating the caller's history; like every operation it funnels a
thrown error through `handleError`.  The reply text is extracted as in
`ask` (newline-joined text segments, per the project notes). -/
def ClaudeAPI.chat (cfg : Config) (history : List Turn) (prompt : String)
    (remote : Request → Except JsError RemoteMessage) : ApiOutcome ChatCallValue :=
  let requested := history ++ [{ role := Role.user, content := prompt }]
  match remote { model := cfg.model, maxTokens := cfg.maxTokens, messages := requested } with
  | Except.ok msg =>
      ApiOutcome.ok
        { response := extractText msg.content,
          usage := { inputTokens := msg.input_tokens, outputTokens := msg.output_tokens },
          updatedHistory :=
            requested ++ [{ role := Role.assistant, content := extractText msg.content }] }
  | Except.error e => ApiOutcome.exited (ClaudeAPI.handleError e)

/-- The chat loop's state: the configuration record the loop mutates
(`config.model` is reassigned by `/model <id>`) and the conversation
history. -/
structure ChatState where
  config : Config
  history : List Turn
  deriving Repr, DecidableEq

/-- Result of one chat-loop iteration: continue with a new state, leave
the loop (`/exit`), or process termination (an error funnelled through
`handleError` during the turn's remote call). -/
inductive StepResult
  | continues (st : ChatState)
  | ended
  | exited (report : ErrorReport)
  deriving Repr, DecidableEq

/-- One iteration of the chat loop of `src/index.ts` on a trimmed input
line: dispatch the line; `/clear` empties the history; `/help`, a bare
`/model` (model listing) and an empty line leave the state unchanged;
`/model <id>` reassigns `config.model` only when `<id>` is in
`ALLOWED_MODELS` and otherwise prints an error and changes nothing; any
other text is forwarded to `ClaudeAPI.chat`, whose returned history
replaces the loop's history — there is no try/catch around this call, so
an error ends the process via `handleError`. -/
def chatStep (st : ChatState) (input : String)
    (remote : Request → Except JsError RemoteMessage) : StepResult :=
  match dispatch input with
  | ChatAction.exitLoop => StepResult.ended
  | ChatAction.clearHistory => StepResult.continues { st with history := [] }
  | ChatAction.help => StepResult.continues st
  | ChatAction.listModelsReq => StepResult.continues st
  | ChatAction.modelSwitch id =>
      if id ∈ ALLOWED_MODELS then
        StepResult.continues { st with config := { st.config with model := id } }
      else
        StepResult.continues st
  | ChatAction.emptyNoop => StepResult.continues st
  | ChatAction.promptTurn p =>
      match ClaudeAPI.chat st.config st.history p remote with
      | ApiOutcome.ok v => StepResult.continues { st with history := v.updatedHistory }
      | ApiOutcome.exited report => StepResult.exited report

/-- The initial chat-session state for a loaded configuration: empty
history, model taken from the configuration. -/
def initialChatState (cfg : Config) : ChatState :=
  { config := cfg, history := [] }

/-! ## Streaming (spec-modelled)

The README documents a `/stream on|off` toggle and streaming replies,
but no streaming code is among the sources.  The simulated remote
response and the two delivery modes are modelled from the spec: the
buffered reply text of a response is the concatenation of the fragments
a streamed delivery of the same response would emit, and the stream is
terminated by one final event carrying the usage totals. -/

/-- A simulated remote response: the generated text as the ordered
fragments of its incremental delivery, plus the usage totals. -/
structure SimulatedResponse where
  fragments : List String
  usage : Usage
  deriving Repr, DecidableEq

/-- One event of a streamed delivery. -/
inductive StreamEvent
  | fragment (s : String)
  | done (u : Usage)
  deriving Repr, DecidableEq

/-- Concatenation of a list of strings (no separator). -/
def concatAll (l : List String) : String :=
  l.foldl (fun acc s => acc ++ s) ""

/-- Modelled from the spec: `chatStream` "produces a lazy sequence of
text fragments; finite; not restartable, terminated by a final event
carrying the usage totals", emitted in generation order. -/
def chatStreamEvents (sim : SimulatedResponse) : List StreamEvent :=
  sim.fragments.map StreamEvent.fragment ++ [StreamEvent.done sim.usage]

/-- Modelled from the spec: the buffered reply text of a simulated
response is the full generated text, i.e. the concatenation of its
fragments. -/
def bufferedContent (sim : SimulatedResponse) : String :=
  concatAll sim.fragments

/-- The text a streaming consumer displays: the in-order concatenation
of the fragment events. -/
def streamedText (events : List StreamEvent) : String :=
  concatAll (events.filterMap fun e =>
    match e with
    | StreamEvent.fragment s => some s
    | StreamEvent.done _ => none)

/-- The usage totals the streaming consumer ends with: those of the
final `done` event. -/
def streamedUsage (events : List StreamEvent) : Usage :=
  events.foldl
    (fun acc e =>
      match e with
      | StreamEvent.done u => u
      | StreamEvent.fragment _ => acc)
    { inputTokens := 0, outputTokens := 0 }

/-- A buffered chat turn on a simulated response: displayed text, final
usage, and the history with the user and assistant turns appended. -/
def bufferedTurn (history : List Turn) (prompt : String) (sim : SimulatedResponse) :
    List Turn × String × Usage :=
  (history ++ [{ role := Role.user, content := prompt },
               { role := Role.assistant, content := bufferedContent sim }],
   bufferedContent sim, sim.usage)

/-- A streaming chat turn on the same simulated response: the consumer
concatenates the fragments for display, folds the completed text into
the history, and takes the usage from the terminating event. -/
def streamingTurn (history : List Turn) (prompt : String) (sim : SimulatedResponse) :
    List Turn × String × Usage :=
  let events := chatStreamEvents sim
  (history ++ [{ role := Role.user, content := prompt },
               { role := Role.assistant, content := streamedText events }],
   streamedText events, streamedUsage events)

/-! ## Helper lemmas on the tokenizer and the dispatcher -/

/-- Reading a whitespace-free word extends the accumulator to the end of
the input and emits a single token. -/
theorem tokenizeWsAux_no_ws (id : List Char) (h2 : ∀ c ∈ id, c.isWhitespace = false) :
    ∀ acc, acc ≠ [] → tokenizeWsAux id acc = [acc.reverse ++ id] := by
  induction id with
  | nil =>
    intro acc hacc
    simp [tokenizeWsAux, hacc]
  | cons c rest ih =>
    intro acc hacc
    have hc : c.isWhitespace = false := h2 c (List.mem_cons_self _ _)
    rw [tokenizeWsAux, hc]
    simp only [Bool.false_eq_true, if_false]
    rw [ih (fun d hd => h2 d (List.mem_cons_of_mem _ hd)) (c :: acc) (by simp)]
    simp

/-- A non-empty input without whitespace is one single token. -/
theorem tokenizeWs_single (id : List Char) (h1 : id ≠ [])
    (h2 : ∀ c ∈ id, c.isWhitespace = false) : tokenizeWs id = [id] := by
  match id, h1 with
  | c :: rest, _ =>
    have hc : c.isWhitespace = false := h2 c (List.mem_cons_self _ _)
    rw [tokenizeWs, tokenizeWsAux, hc]
    simp only [Bool.false_eq_true, if_false]
    rw [tokenizeWsAux_no_ws rest (fun d hd => h2 d (List.mem_cons_of_mem _ hd)) [c] (by simp)]
    simp

/-- Splitting a `/model <id>` line yields exactly the two parts. -/
theorem tokenizeWs_model_arg (id : List Char) (h1 : id ≠ [])
    (h2 : ∀ c ∈ id, c.isWhitespace = false) :
    tokenizeWs ("/model ".data ++ id) = ["/model".data, id] := by
  show tokenizeWsAux ('/' :: 'm' :: 'o' :: 'd' :: 'e' :: 'l' :: ' ' :: id) [] = _
  show "/model".data :: tokenizeWsAux id [] = _
  rw [show tokenizeWsAux id [] = tokenizeWs id from rfl, tokenizeWs_single id h1 h2]

/-- A `/model <id>` line (with a non-empty, whitespace-free id) is
dispatched to the model-switch branch carrying that id. -/
theorem dispatchChars_model_arg (id : List Char) (h1 : id ≠ [])
    (h2 : ∀ c ∈ id, c.isWhitespace = false) :
    dispatchChars ("/model ".data ++ id) = ChatAction.modelSwitch (String.mk id) := by
  have hpre : "/model".data.isPrefixOf ("/model ".data ++ id) = true := rfl
  rw [dispatchChars]
  rw [if_neg (by simp), if_neg (by simp), if_neg (by simp), if_pos hpre]
  rw [tokenizeWs_model_arg id h1 h2]
  simp

/-- String-level version of `dispatchChars_model_arg`. -/
theorem dispatch_model_arg (id : String) (h1 : id ≠ "")
    (h2 : ∀ c ∈ id.data, c.isWhitespace = false) :
    dispatch ("/model " ++ id) = ChatAction.modelSwitch id := by
  have hd : ("/model " ++ id).data = "/model ".data ++ id.data := by
    simp [String.data_append]
  have h1' : id.data ≠ [] := by
    intro h
    apply h1
    cases id
    simp_all
  rw [dispatch, hd, dispatchChars_model_arg id.data h1' h2]

/-! ## The claims -/

/-- C1, counterexample: the claim also asserts that the model used for
every request — including `ask` with a `--model` override — is a member
of the allowed-model set.  It is not: the `ask` action assigns
`config.model = options.model` without any membership check, so
`ask "hi" --model bogus-id` (with a valid API key in the environment)
issues its request with model `bogus-id`, which is outside
`ALLOWED_MODELS`. -/
theorem C1_ask_override_escapes_allowed_set :
    askCommand { anthropicApiKey := some "test-key" } { model := some "bogus-id" } "hi"
      = AskCmdOutcome.request
          { model := "bogus-id", maxTokens := 1000,
            messages := [{ role := Role.user, content := "hi" }] }
    ∧ "bogus-id" ∉ ALLOWED_MODELS := by
  constructor
  · rfl
  · decide

/-- C1, amended: in the chat session, `/model <id>` (for a well-formed
id token: non-empty, no whitespace) switches the active model exactly
when `<id>` is in the allowed-model set and otherwise leaves the whole
session state — in particular the previously active model — unchanged;
the `--model` override of `ask`, however, is applied to the request
without validation, so an `ask` request's model need not belong to the
allowed set (see the counterexample). -/
theorem C1_chat_model_switch (st : ChatState) (id : String)
    (remote : Request → Except JsError RemoteMessage)
    (h1 : id ≠ "") (h2 : ∀ c ∈ id.data, c.isWhitespace = false) :
    (id ∈ ALLOWED_MODELS →
      chatStep st ("/model " ++ id) remote
        = StepResult.continues { st with config := { st.config with model := id } }) ∧
    (id ∉ ALLOWED_MODELS →
      chatStep st ("/model " ++ id) remote = StepResult.continues st) := by
  rw [chatStep, dispatch_model_arg id h1 h2]
  dsimp only
  constructor
  · intro h
    rw [if_pos h]
  · intro h
    rw [if_neg h]

/-- C1, witness: switching to the allowed id
`claude-3-7-sonnet-latest` is accepted, and switching to `bogus-id` is
rejected with the previous model still active. -/
theorem C1_chat_model_switch_witness :
    chatStep (initialChatState { apiKey := "k", model := "claude-opus-4-20250514", maxTokens := 1000 })
        "/model claude-3-7-sonnet-latest" (fun _ => Except.error (JsError.unknown "down"))
      = StepResult.continues
          { config := { apiKey := "k", model := "claude-3-7-sonnet-latest", maxTokens := 1000 },
            history := [] }
    ∧ chatStep (initialChatState { apiKey := "k", model := "claude-opus-4-20250514", maxTokens := 1000 })
        "/model bogus-id" (fun _ => Except.error (JsError.unknown "down"))
      = StepResult.continues
          { config := { apiKey := "k", model := "claude-opus-4-20250514", maxTokens := 1000 },
            history := [] } :=
  ⟨(C1_chat_model_switch _ "claude-3-7-sonnet-latest" _ (by decide) (by decide)).1 (by decide),
   (C1_chat_model_switch _ "bogus-id" _ (by decide) (by decide)).2 (by decide)⟩

/-- C2, counterexample: the Model Client does itself terminate the
process.  A rate-limit failure (status 429) during `ask` is funnelled
into `handleError`, which prints the hint and exits with status 1
instead of returning a typed error value; and an API error during an
interactive chat turn likewise terminates the session (the loop has no
per-turn catch), instead of the loop continuing. -/
theorem C2_model_client_exits_process :
    ClaudeAPI.ask { apiKey := "k", model := "claude-opus-4-20250514", maxTokens := 1000 } "hi"
        (fun _ => Except.error (JsError.apiError (some 429) "rate limited"))
      = ApiOutcome.exited
          { lines := ["API Error: rate limited", "Rate limit exceeded. Please wait a moment."],
            exitCode := 1 }
    ∧ chatStep
        (initialChatState { apiKey := "k", model := "claude-opus-4-20250514", maxTokens := 1000 })
        "hello" (fun _ => Except.error (JsError.apiError (some 429) "rate limited"))
      = StepResult.exited
          { lines := ["API Error: rate limited", "Rate limit exceeded. Please wait a moment."],
            exitCode := 1 } := by
  constructor
  · rfl
  · rfl

/-- C2, amended: every failure thrown by a Model Client operation
(`ask`, `chat`, `listModels`) is funnelled through `handleError`, which
prints a classified message and terminates the process with exit status
1 — the client never returns an error value to its caller; in
particular an ApiError raised during one interactive chat turn
terminates the whole process rather than being caught, printed and the
loop continuing. -/
theorem C2_all_failures_funnel_to_exit1 (e : JsError) (cfg : Config) (prompt : String)
    (history : List Turn) (o : ListOptions) (st : ChatState) (p : String)
    (hp : dispatch p = ChatAction.promptTurn p) :
    (ClaudeAPI.handleError e).exitCode = 1
    ∧ ClaudeAPI.ask cfg prompt (fun _ => Except.error e)
        = ApiOutcome.exited (ClaudeAPI.handleError e)
    ∧ ClaudeAPI.chat cfg history prompt (fun _ => Except.error e)
        = ApiOutcome.exited (ClaudeAPI.handleError e)
    ∧ ClaudeAPI.listModels o (fun _ => Except.error e)
        = ApiOutcome.exited (ClaudeAPI.handleError e)
    ∧ chatStep st p (fun _ => Except.error e)
        = StepResult.exited (ClaudeAPI.handleError e) := by
  refine ⟨?_, rfl, rfl, rfl, ?_⟩
  · cases e <;> rfl
  · rw [chatStep, hp]
    rfl

/-- C2, witness: the amended statement at a concrete 401 error, state
and prompt. -/
theorem C2_all_failures_funnel_to_exit1_witness :
    (ClaudeAPI.handleError (JsError.apiError (some 401) "bad key")).exitCode = 1
    ∧ ClaudeAPI.ask { apiKey := "k", model := "claude-opus-4-20250514", maxTokens := 1000 } "hi"
        (fun _ => Except.error (JsError.apiError (some 401) "bad key"))
        = ApiOutcome.exited (ClaudeAPI.handleError (JsError.apiError (some 401) "bad key"))
    ∧ ClaudeAPI.chat { apiKey := "k", model := "claude-opus-4-20250514", maxTokens := 1000 } [] "hi"
        (fun _ => Except.error (JsError.apiError (some 401) "bad key"))
        = ApiOutcome.exited (ClaudeAPI.handleError (JsError.apiError (some 401) "bad key"))
    ∧ ClaudeAPI.listModels {} (fun _ => Except.error (JsError.apiError (some 401) "bad key"))
        = ApiOutcome.exited (ClaudeAPI.handleError (JsError.apiError (some 401) "bad key"))
    ∧ chatStep (initialChatState { apiKey := "k", model := "claude-opus-4-20250514", maxTokens := 1000 })
        "hi" (fun _ => Except.error (JsError.apiError (some 401) "bad key"))
        = StepResult.exited (ClaudeAPI.handleError (JsError.apiError (some 401) "bad key")) :=
  C2_all_failures_funnel_to_exit1 (JsError.apiError (some 401) "bad key")
    { apiKey := "k", model := "claude-opus-4-20250514", maxTokens := 1000 } "hi" [] {}
    (initialChatState { apiKey := "k", model := "claude-opus-4-20250514", maxTokens := 1000 })
    "hi" (by decide)

/-- Inversion of a successful `loadConfig`: each schema field validated. -/
theorem loadConfig_ok_inv (env : Env) (c : Config) (h : loadConfig env = LoadResult.ok c) :
    zodApiKey env.anthropicApiKey = Except.ok c.apiKey
    ∧ zodModel env.claudeModel = Except.ok c.model
    ∧ zodMaxTokens (maxTokensInput env.maxTokensVar) = Except.ok c.maxTokens := by
  rw [loadConfig] at h
  split at h
  case _ c' hparse =>
    cases h
    rw [ConfigSchema.parse] at hparse
    split at hparse
    · exact absurd hparse (by simp)
    case _ k hk =>
      split at hparse
      · exact absurd hparse (by simp)
      case _ m hm =>
        split at hparse
        · exact absurd hparse (by simp)
        case _ t ht =>
          cases hparse
          exact ⟨hk, hm, ht⟩
  case _ => exact absurd h (by simp)

/-- A configuration failure always prints a non-empty message list. -/
theorem loadConfig_exit1_nonempty (env : Env) (lines : List String)
    (h : loadConfig env = LoadResult.exit1 lines) : lines ≠ [] := by
  rw [loadConfig] at h
  split at h
  · exact absurd h (by simp)
  · cases h
    simp

/-- C3, confirmed: if the API-key environment variable is missing or
empty, or `CLAUDE_MODEL` names an id outside the allowed set, or
`MAX_TOKENS` is set to a non-empty string that parses to NaN or to a
non-positive number, then the `ask` command terminates during
`loadConfig` with a visible (non-empty) configuration-error message —
the outcome is `configExit`, which is reached before the API client is
constructed, so no network request is issued. -/
theorem C3_config_error_exits_before_network (env : Env) (opts : AskOptions) (prompt : String) :
    (env.anthropicApiKey = none ∨ env.anthropicApiKey = some "" →
       ∃ lines, askCommand env opts prompt = AskCmdOutcome.configExit lines ∧ lines ≠ [])
    ∧ (∀ m, env.claudeModel = some m → m ∉ ALLOWED_MODELS →
       ∃ lines, askCommand env opts prompt = AskCmdOutcome.configExit lines ∧ lines ≠ [])
    ∧ (∀ s, env.maxTokensVar = some s → s ≠ "" →
       (parseIntJS s = none ∨ ∃ t, parseIntJS s = some t ∧ t ≤ 0) →
       ∃ lines, askCommand env opts prompt = AskCmdOutcome.configExit lines ∧ lines ≠ []) := by
  have exit_case : ∀ lines, loadConfig env = LoadResult.exit1 lines →
      ∃ lines', askCommand env opts prompt = AskCmdOutcome.configExit lines' ∧ lines' ≠ [] := by
    intro lines hl
    refine ⟨lines, ?_, loadConfig_exit1_nonempty env lines hl⟩
    rw [askCommand, hl]
  refine ⟨?_, ?_, ?_⟩
  · intro hk
    cases hl : loadConfig env with
    | ok c =>
      exfalso
      have hinv := (loadConfig_ok_inv env c hl).1
      rcases hk with h | h <;> rw [h] at hinv <;> simp [zodApiKey] at hinv
    | exit1 lines => exact exit_case lines hl
  · intro m hm hnotin
    cases hl : loadConfig env with
    | ok c =>
      exfalso
      have hinv := (loadConfig_ok_inv env c hl).2.1
      rw [hm] at hinv
      simp [zodModel, hnotin] at hinv
    | exit1 lines => exact exit_case lines hl
  · intro s hs hne hbad
    cases hl : loadConfig env with
    | ok c =>
      exfalso
      have hinv := (loadConfig_ok_inv env c hl).2.2
      rw [hs] at hinv
      rw [show maxTokensInput (some s) = some (parseIntJS s) from by simp [maxTokensInput, hne]]
        at hinv
      rcases hbad with h | ⟨t, ht, htle⟩
      · rw [h] at hinv
        simp [zodMaxTokens] at hinv
      · rw [ht] at hinv
        simp [zodMaxTokens, show ¬(0 < t) from by omega] at hinv
    | exit1 lines => exact exit_case lines hl

/-- C3, witness: with an entirely empty environment, `ask "hi"` exits
with a configuration error and no request is issued. -/
theorem C3_config_error_exits_before_network_witness :
    ∃ lines, askCommand {} {} "hi" = AskCmdOutcome.configExit lines ∧ lines ≠ [] :=
  (C3_config_error_exits_before_network {} {} "hi").1 (Or.inl rfl)

/-- C4, confirmed (spec-modelled): for every input history, prompt and
remote reply, the history returned by `chat` is exactly the input
history with one user turn carrying the prompt and then one assistant
turn carrying the reply appended — nothing removed, nothing reordered
(the input history is an unchanged prefix, and exactly two turns are
added); the embedding is purely functional, so the caller's history
value is not mutated. -/
theorem C4_chat_appends_exactly_two_turns (cfg : Config) (history : List Turn)
    (prompt : String) (msg : RemoteMessage) :
    ClaudeAPI.chat cfg history prompt (fun _ => Except.ok msg)
      = ApiOutcome.ok
          { response := extractText msg.content,
            usage := { inputTokens := msg.input_tokens, outputTokens := msg.output_tokens },
            updatedHistory :=
              history ++ [{ role := Role.user, content := prompt },
                          { role := Role.assistant, content := extractText msg.content }] }
    ∧ (history ++ ([{ role := Role.user, content := prompt },
                    { role := Role.assistant, content := extractText msg.content }] :
                   List Turn)).length
        = history.length + 2
    ∧ history <+: history ++ [{ role := Role.user, content := prompt },
                              { role := Role.assistant, content := extractText msg.content }] := by
  refine ⟨?_, by simp, List.prefix_append _ _⟩
  rw [ClaudeAPI.chat]
  simp

/-- Extracting the fragments back out of a terminated stream yields
exactly the fragment list. -/
theorem filterMap_stream_fragments (l : List String) (u : Usage) :
    ((l.map StreamEvent.fragment ++ [StreamEvent.done u]).filterMap fun e =>
        match e with
        | StreamEvent.fragment s => some s
        | StreamEvent.done _ => none) = l := by
  induction l with
  | nil => rfl
  | cons s rest ih =>
    simp only [List.map_cons, List.cons_append, List.filterMap_cons]
    rw [ih]

/-- The displayed text of a streamed delivery is the concatenation of
the response's fragments. -/
theorem streamedText_events (sim : SimulatedResponse) :
    streamedText (chatStreamEvents sim) = concatAll sim.fragments := by
  rw [streamedText, chatStreamEvents, filterMap_stream_fragments]

/-- The usage a streamed delivery ends with is the usage of its
terminating event. -/
theorem streamedUsage_events (sim : SimulatedResponse) :
    streamedUsage (chatStreamEvents sim) = sim.usage := by
  rw [streamedUsage, chatStreamEvents]
  generalize sim.usage = u
  generalize ({ inputTokens := 0, outputTokens := 0 } : Usage) = acc
  induction sim.fragments generalizing acc with
  | nil => rfl
  | cons s rest ih =>
    simp only [List.map_cons, List.cons_append, List.foldl_cons]
    exact ih _

/-- C5, confirmed (spec-modelled): a streaming chat turn and a buffered
chat turn on the same simulated remote response produce the same final
displayed text, the same appended history and the same final usage
totals — the concatenation of the streamed fragments equals the
buffered content; in particular the spec's scenario: fragments
`["Hel","lo"]` with usage `{in:5,out:2}` display `"Hello"`, append the
assistant turn `"Hello"`, and report usage `{5,2}`. -/
theorem C5_streaming_buffered_equivalence :
    (∀ (history : List Turn) (prompt : String) (sim : SimulatedResponse),
        streamingTurn history prompt sim = bufferedTurn history prompt sim)
    ∧ streamedText (chatStreamEvents { fragments := ["Hel", "lo"], usage := ⟨5, 2⟩ }) = "Hello"
    ∧ streamedUsage (chatStreamEvents { fragments := ["Hel", "lo"], usage := ⟨5, 2⟩ }) = ⟨5, 2⟩
    ∧ streamingTurn [] "hi" { fragments := ["Hel", "lo"], usage := ⟨5, 2⟩ }
        = (([{ role := Role.user, content := "hi" },
             { role := Role.assistant, content := "Hello" }], "Hello",
            (⟨5, 2⟩ : Usage)) : List Turn × String × Usage) := by
  refine ⟨?_, by decide, by decide, by decide⟩
  intro history prompt sim
  simp [streamingTurn, bufferedTurn, bufferedContent, streamedText_events, streamedUsage_events]

/-- C6, code_bug: the chat loop of `src/index.ts` implements no
`/stream` command at all (and keeps no streaming flag), although the
repository's README documents `/stream [on|off]` as a chat command that
toggles streaming replies.  The input `/stream on` (and `/stream off`)
falls through every command branch and is treated as an ordinary
prompt: it is forwarded to the model as a user turn and the reply is
appended to the history. -/
theorem C6_stream_toggle_is_treated_as_prompt :
    dispatch "/stream on" = ChatAction.promptTurn "/stream on"
    ∧ dispatch "/stream off" = ChatAction.promptTurn "/stream off"
    ∧ chatStep
        (initialChatState { apiKey := "k", model := "claude-opus-4-20250514", maxTokens := 1000 })
        "/stream on"
        (fun _ => Except.ok { content := [ContentBlock.text "ok"],
                              input_tokens := 1, output_tokens := 1 })
      = StepResult.continues
          { config := { apiKey := "k", model := "claude-opus-4-20250514", maxTokens := 1000 },
            history := [{ role := Role.user, content := "/stream on" },
                        { role := Role.assistant, content := "ok" }] } := by
  refine ⟨by decide, by decide, rfl⟩

/-- C7, confirmed: in every session state, `/clear` resets the history
to the empty sequence (whatever its prior length) and the loop
continues in the same state otherwise; the next successful chat turn
from the cleared state yields a history holding exactly that turn's two
newly appended messages. -/
theorem C7_clear_resets_history (st : ChatState)
    (remote : Request → Except JsError RemoteMessage) (msg : RemoteMessage) (p : String)
    (hp : dispatch p = ChatAction.promptTurn p) :
    chatStep st "/clear" remote = StepResult.continues { st with history := [] }
    ∧ chatStep { st with history := [] } p (fun _ => Except.ok msg)
        = StepResult.continues
            { st with history := [{ role := Role.user, content := p },
                                  { role := Role.assistant, content := extractText msg.content }] } := by
  constructor
  · rfl
  · rw [chatStep, hp]
    dsimp only
    rw [ClaudeAPI.chat]
    simp

/-- C7, witness: clearing a two-turn history empties it, and the next
turn (`hi`, answered `there`) starts the history afresh with only its
own two messages. -/
theorem C7_clear_resets_history_witness :
    chatStep
        { config := { apiKey := "k", model := "claude-opus-4-20250514", maxTokens := 1000 },
          history := [{ role := Role.user, content := "old q" },
                      { role := Role.assistant, content := "old a" }] }
        "/clear" (fun _ => Except.error (JsError.unknown "down"))
      = StepResult.continues
          { config := { apiKey := "k", model := "claude-opus-4-20250514", maxTokens := 1000 },
            history := [] }
    ∧ chatStep
        { config := { apiKey := "k", model := "claude-opus-4-20250514", maxTokens := 1000 },
          history := [] }
        "hi" (fun _ => Except.ok { content := [ContentBlock.text "there"],
                                   input_tokens := 1, output_tokens := 1 })
      = StepResult.continues
          { config := { apiKey := "k", model := "claude-opus-4-20250514", maxTokens := 1000 },
            history := [{ role := Role.user, content := "hi" },
                        { role := Role.assistant, content := "there" }] } :=
  C7_clear_resets_history
    { config := { apiKey := "k", model := "claude-opus-4-20250514", maxTokens := 1000 },
      history := [{ role := Role.user, content := "old q" },
                  { role := Role.assistant, content := "old a" }] }
    (fun _ => Except.error (JsError.unknown "down"))
    { content := [ContentBlock.text "there"], input_tokens := 1, output_tokens := 1 }
    "hi" (by decide)

/-- C8, counterexample: with a reply holding two text segments `"a"`
and `"b"`, `ask` returns `"a\nb"` — the segments joined with a newline
separator (`join('\n')`) — which differs from their concatenation
`"ab"`; the claim's "concatenation of the text segments" fails on
replies with more than one text segment. -/
theorem C8_two_segments_newline_joined :
    ClaudeAPI.ask { apiKey := "k", model := "claude-opus-4-20250514", maxTokens := 1000 } "q"
        (fun _ => Except.ok { content := [ContentBlock.text "a", ContentBlock.text "b"],
                              input_tokens := 3, output_tokens := 4 })
      = ApiOutcome.ok { content := "a\nb", usage := { inputTokens := 3, outputTokens := 4 } }
    ∧ "a\nb" ≠ "a" ++ "b" := by
  exact ⟨rfl, by decide⟩

/-- C8, amended: for every prompt, `ask` sends a single-turn request
whose messages are exactly one user turn carrying the prompt, and on
success returns the reply's text segments joined with a newline
separator (discarding any non-text segments) together with the
input/output token counts reported by the remote call. -/
theorem C8_ask_single_turn_newline_extraction (cfg : Config) (prompt : String)
    (msg : RemoteMessage) :
    (ClaudeAPI.askRequest cfg prompt).messages = [{ role := Role.user, content := prompt }]
    ∧ (ClaudeAPI.askRequest cfg prompt).model = cfg.model
    ∧ ClaudeAPI.ask cfg prompt (fun _ => Except.ok msg)
        = ApiOutcome.ok
            { content := joinNewline (msg.content.filterMap fun b =>
                match b with
                | ContentBlock.text s => some s
                | ContentBlock.other _ => none),
              usage := { inputTokens := msg.input_tokens, outputTokens := msg.output_tokens } } := by
  exact ⟨rfl, rfl, rfl⟩

/-- C9, counterexample: the cursors are appended under a JS truthiness
guard (`if (options?.afterId)`), so the empty-string cursor is not
forwarded at all: with `afterId = ""` the built query is empty rather
than carrying `after_id=`; "forwards the cursors verbatim for every
options value" fails at that input. -/
theorem C9_empty_cursor_not_forwarded :
    listModelsQuery { afterId := some "", beforeId := none, limit := none } = []
    ∧ ([] : List (String × String)) ≠ [("after_id", "")] := by
  exact ⟨rfl, by decide⟩

/-- C9, amended: every non-empty `afterId`/`beforeId` cursor is
forwarded verbatim (unmodified, as `after_id`/`before_id`) to the
remote call, while an empty-string cursor is dropped by the truthiness
guard; and `listModels` returns exactly the single page the one remote
call yields, never issuing follow-up requests. -/
theorem C9_cursors_forwarded_single_page (a b : String) (o : ListOptions)
    (page : ModelsListResponse) (ha : a ≠ "") (hb : b ≠ "") :
    listModelsQuery { afterId := some a, beforeId := some b, limit := none }
      = [("after_id", a), ("before_id", b)]
    ∧ ClaudeAPI.listModels o (fun _ => Except.ok page) = ApiOutcome.ok page := by
  constructor
  · simp [listModelsQuery, ha, hb]
  · rfl

/-- C9, witness: concrete non-empty cursors are forwarded verbatim and
a concrete page is returned unchanged. -/
theorem C9_cursors_forwarded_single_page_witness :
    listModelsQuery { afterId := some "model-a", beforeId := some "model-b", limit := none }
      = [("after_id", "model-a"), ("before_id", "model-b")]
    ∧ ClaudeAPI.listModels {}
        (fun _ => Except.ok { data := [], first_id := none, has_more := false, last_id := none })
      = ApiOutcome.ok { data := [], first_id := none, has_more := false, last_id := none } :=
  C9_cursors_forwarded_single_page "model-a" "model-b" {}
    { data := [], first_id := none, has_more := false, last_id := none }
    (by decide) (by decide)

/-- C10, confirmed: a `--tokens` value that `parseInt` turns into NaN
(non-numeric input) or into 0 is falsy, so the truthiness-guarded
override is silently skipped rather than rejected: the configuration's
`maxTokens` stays, and with `MAX_TOKENS` unset that is the schema
default 1000, which is then used for the request. -/
theorem C10_zero_or_nan_tokens_ignored (opts : AskOptions) (env : Env) (prompt : String)
    (c : Config) (htok : opts.tokens = some none ∨ opts.tokens = some (some 0)) :
    (∀ cfg : Config, (applyAskOverrides cfg opts).maxTokens = cfg.maxTokens)
    ∧ parseIntJS "abc" = none
    ∧ parseIntJS "0" = some 0
    ∧ (env.maxTokensVar = none → loadConfig env = LoadResult.ok c → c.maxTokens = 1000)
    ∧ (env.maxTokensVar = none → loadConfig env = LoadResult.ok c →
        ∀ r, askCommand env opts prompt = AskCmdOutcome.request r → r.maxTokens = 1000) := by
  have hover : ∀ cfg : Config, (applyAskOverrides cfg opts).maxTokens = cfg.maxTokens := by
    intro cfg
    rcases htok with h | h <;>
      · rw [applyAskOverrides, h]
        cases hm : jsStrTruthy opts.model <;> simp [jsNumTruthy, hm]
  have hdefault : env.maxTokensVar = none → loadConfig env = LoadResult.ok c →
      c.maxTokens = 1000 := by
    intro henv hload
    have hinv := (loadConfig_ok_inv env c hload).2.2
    rw [henv] at hinv
    simp [maxTokensInput, zodMaxTokens] at hinv
    omega
  refine ⟨hover, rfl, rfl, hdefault, ?_⟩
  intro henv hload r hr
  rw [askCommand, hload] at hr
  cases hr
  rw [ClaudeAPI.askRequest]
  dsimp only
  rw [hover c, hdefault henv hload]

/-- C10, witness: with only the API key set and `--tokens` given a
non-numeric value (NaN), the issued request uses the default 1000. -/
theorem C10_zero_or_nan_tokens_ignored_witness :
    (∀ cfg : Config,
        (applyAskOverrides cfg { model := none, tokens := some none }).maxTokens = cfg.maxTokens)
    ∧ parseIntJS "abc" = none
    ∧ parseIntJS "0" = some 0
    ∧ (({ anthropicApiKey := some "k" } : Env).maxTokensVar = none →
        loadConfig { anthropicApiKey := some "k" }
          = LoadResult.ok { apiKey := "k", model := "claude-opus-4-20250514", maxTokens := 1000 } →
        ({ apiKey := "k", model := "claude-opus-4-20250514", maxTokens := 1000 } : Config).maxTokens
          = 1000)
    ∧ (({ anthropicApiKey := some "k" } : Env).maxTokensVar = none →
        loadConfig { anthropicApiKey := some "k" }
          = LoadResult.ok { apiKey := "k", model := "claude-opus-4-20250514", maxTokens := 1000 } →
        ∀ r, askCommand { anthropicApiKey := some "k" } { model := none, tokens := some none } "hi"
            = AskCmdOutcome.request r → r.maxTokens = 1000) :=
  C10_zero_or_nan_tokens_ignored { model := none, tokens := some none }
    { anthropicApiKey := some "k" } "hi"
    { apiKey := "k", model := "claude-opus-4-20250514", maxTokens := 1000 } (Or.inl rfl)

end ClaudeTools
